import Mathlib

/-!
Verification of the G1 segmented-array allocator header
(`src/hotspot/share/gc/g1/g1SegmentedArray.hpp`).

Machine integers of type `uint` are modelled as `Nat` with explicit
`% 2^32` where the source arithmetic can wrap.  Pointers are modelled
as addresses (`Nat`); the null pointer as `none` of an `Option Nat`.
Debug assertions (`assert(...)`) are modelled by returning `Option`:
`none` means the assertion fired and the operation did not complete.
-/

/-- `UINT_MAX` of a 32-bit `unsigned int`. -/
def UINT_MAX : Nat := 2 ^ 32 - 1

/-- HotSpot's `clamp(value, min, max)` from globalDefinitions:
`MIN2(MAX2(value, min), max)`. -/
def clamp (value lo hi : Nat) : Nat := min (max value lo) hi

/-- Model of `SegmentedArrayBuffer`: a slab of `num_elems` blocks of
`elem_size` bytes.  `id` models the object's address, `next` the
intrusive `_next` link (an address, or `none` for null), `buffer` the
backing bytes, `next_allocate` the bump offset `_next_allocate`. -/
structure SegmentedArrayBuffer where
  id : Nat
  elem_size : Nat
  num_elems : Nat
  next : Option Nat
  buffer : List Nat
  next_allocate : Nat
  deriving Repr, DecidableEq

namespace SegmentedArrayBuffer

/-- `set_next`: asserts `next != this` (modelled as returning `none`
when the assertion fires), then stores the link. -/
def set_next (b : SegmentedArrayBuffer) (n : Option Nat) :
    Option SegmentedArrayBuffer :=
  if n = some b.id then none else some { b with next := n }

/-- `reset(next)`: sets `_next_allocate = 0`, asserts `next != this`,
calls `set_next(next)`, then `memset`s the `_num_elems * _elem_size`
bytes of backing storage to zero. -/
def reset (b : SegmentedArrayBuffer) (n : Option Nat) :
    Option SegmentedArrayBuffer :=
  if n = some b.id then none
  else
    (set_next { b with next_allocate := 0 } n).map fun b2 =>
      { b2 with buffer := List.replicate (b.num_elems * b.elem_size) 0 }

/-- `length()`: returns `_next_allocate`. -/
def length (b : SegmentedArrayBuffer) : Nat := b.next_allocate

/-- `is_full()`: `_next_allocate >= _num_elems`. -/
def is_full (b : SegmentedArrayBuffer) : Bool :=
  b.num_elems ≤ b.next_allocate

/-- Modelled from the spec: the body of `get_new_buffer_elem`
(`allocate_slot` in the spec's words) is not part of the sources here,
only its declaration.  Per spec §4.1 it "atomically increments
`next_allocate` and returns the previous value; if that value is
`< capacity`, returns a pointer into the buffer at `prev * elem_size`;
otherwise returns 'exhausted' (no pointer)" — a pure compare-free
fetch-and-add.  The returned pointer is modelled as the byte offset
into the buffer. -/
def get_new_buffer_elem (b : SegmentedArrayBuffer) :
    Option Nat × SegmentedArrayBuffer :=
  let prev := b.next_allocate
  ((if prev < b.num_elems then some (prev * b.elem_size) else none),
   { b with next_allocate := prev + 1 })

/-- A run of `n` successive calls to `get_new_buffer_elem`, collecting
the results in order.  Because each call's only access to shared state
is the single atomic fetch-and-add, every thread interleaving of `n`
concurrent calls is equivalent to some sequential order of the `n`
atomic increments, and all calls are indistinguishable, so a run over
an arbitrary count models every interleaving. -/
def runAllocs : Nat → SegmentedArrayBuffer →
    List (Option Nat) × SegmentedArrayBuffer
  | 0, b => ([], b)
  | n + 1, b =>
    let r := get_new_buffer_elem b
    let rest := runAllocs n r.2
    (r.1 :: rest.1, rest.2)

/-- Helper: explicit form of a completed `reset` (assertion passed). -/
theorem reset_eq_of_ne (b : SegmentedArrayBuffer) (n : Option Nat)
    (h : n ≠ some b.id) :
    b.reset n = some { b with next_allocate := 0, next := n, buffer := List.replicate (b.num_elems * b.elem_size) 0 } := by
  simp [reset, set_next, h]

/-- Helper: explicit form of a completed `set_next` (assertion passed). -/
theorem set_next_eq_of_ne (b : SegmentedArrayBuffer) (n : Option Nat)
    (h : n ≠ some b.id) :
    b.set_next n = some { b with next := n } := by
  simp [set_next, h]

end SegmentedArrayBuffer

/-- Model of `SegmentedArrayBufferList`, the free-buffer pool.
Modelled from the spec: the underlying `LockFreeStack` is not part of
the sources here.  Per spec §4.3 `push` prepends a buffer (its
intrusive link is pointed at the previous head) and `pop` removes and
returns the head, or "empty" if none. -/
structure SegmentedArrayBufferList where
  list : List SegmentedArrayBuffer
  deriving Repr

namespace SegmentedArrayBufferList

/-- `add(elem)`: `_list.prepend(elem)` — the buffer's intrusive link is
set to the old head and the buffer becomes the new head. -/
def add (l : SegmentedArrayBufferList) (b : SegmentedArrayBuffer) :
    SegmentedArrayBufferList :=
  ⟨{ b with next := (l.list.head?).map SegmentedArrayBuffer.id } :: l.list⟩

/-- `get()`: pop the head buffer, or `none` when the pool is empty. -/
def get (l : SegmentedArrayBufferList) :
    Option SegmentedArrayBuffer × SegmentedArrayBufferList :=
  match l.list with
  | [] => (none, ⟨[]⟩)
  | b :: rest => (some b, ⟨rest⟩)

end SegmentedArrayBufferList

/-- Model of `G1SegmentedArrayAllocOptions` (the sizing policy): the
four `uint` fields stored by the constructor. -/
structure G1SegmentedArrayAllocOptions where
  elem_size : Nat
  initial_num_elems : Nat
  max_num_elems : Nat
  alignment : Nat
  deriving Repr, DecidableEq

namespace G1SegmentedArrayAllocOptions

/-- `static const uint BufferAlignment = 4`. -/
def BufferAlignment : Nat := 4

/-- `static const uint MinimumBufferSize = 8`. -/
def MinimumBufferSize : Nat := 8

/-- `static const uint MaximumBufferSize = UINT_MAX / 2`. -/
def MaximumBufferSize : Nat := UINT_MAX / 2

/-- The constructor: stores the four arguments unchanged. -/
def make (elem_size initial_num_elems max_num_elems alignment : Nat) :
    G1SegmentedArrayAllocOptions :=
  ⟨elem_size, initial_num_elems, max_num_elems, alignment⟩

/-- The constructor called with only an element size: the remaining
arguments take their declared defaults `MinimumBufferSize`,
`MaximumBufferSize` and `BufferAlignment`. -/
def makeDefault (elem_size : Nat) : G1SegmentedArrayAllocOptions :=
  make elem_size MinimumBufferSize MaximumBufferSize BufferAlignment

/-- `exponential_expand(prev_num_elems)`:
`clamp(prev_num_elems * 2, _initial_num_elems, _max_num_elems)`.
The multiplication is `uint` arithmetic, hence the `% 2^32`. -/
def exponential_expand (o : G1SegmentedArrayAllocOptions)
    (prev_num_elems : Nat) : Nat :=
  clamp (prev_num_elems * 2 % 2 ^ 32) o.initial_num_elems o.max_num_elems

/-- `next_num_elems(prev_num_elems)`: returns `_initial_num_elems`. -/
def next_num_elems (o : G1SegmentedArrayAllocOptions)
    (prev_num_elems : Nat) : Nat :=
  o.initial_num_elems

end G1SegmentedArrayAllocOptions

/-! ## Helper lemmas for the bump-allocation run -/

/-- The results of `n` successive `get_new_buffer_elem` calls: call `i`
(counting from the starting offset) succeeds with byte offset
`(start + i) * elem_size` iff `start + i < num_elems`. -/
theorem runAllocs_results (n : Nat) (b : SegmentedArrayBuffer) :
    (SegmentedArrayBuffer.runAllocs n b).1 =
      (List.range n).map (fun i =>
        if b.next_allocate + i < b.num_elems
        then some ((b.next_allocate + i) * b.elem_size) else none) := by
  induction n generalizing b with
  | zero => rfl
  | succ n ih =>
    rw [List.range_succ_eq_map, List.map_cons, List.map_map]
    show (SegmentedArrayBuffer.get_new_buffer_elem b).1 ::
      (SegmentedArrayBuffer.runAllocs n
        (SegmentedArrayBuffer.get_new_buffer_elem b).2).1 = _
    rw [ih]
    refine congrArg₂ List.cons ?_ ?_
    · simp [SegmentedArrayBuffer.get_new_buffer_elem]
    · apply List.map_congr_left
      intro i _
      simp only [SegmentedArrayBuffer.get_new_buffer_elem, Function.comp,
        Nat.succ_eq_add_one]
      have h1 : b.next_allocate + 1 + i = b.next_allocate + (i + 1) := by
        omega
      rw [h1]

/-- Helper: `filterMap` is `map` on a list where the function always
succeeds. -/
theorem filterMap_eq_map_of_some (l : List Nat) (f : Nat → Option Nat)
    (g : Nat → Nat) (h : ∀ i ∈ l, f i = some (g i)) :
    l.filterMap f = l.map g := by
  induction l with
  | nil => rfl
  | cons a t ih =>
    simp only [List.filterMap_cons, h a (List.mem_cons_self a t),
      List.map_cons]
    rw [ih fun i hi => h i (List.mem_cons_of_mem a hi)]

/-! ## Claims -/

/-- C1: for every sizing-policy instance and every previous capacity
`prev`, `next_num_elems prev` returns the stored `_initial_num_elems`,
independent of `prev`; and the policy is observably not the doubling
helper: on a concrete instance the two functions disagree, so
`next_num_elems` cannot be invoking `exponential_expand`. -/
theorem next_num_elems_constant :
    (∀ (o : G1SegmentedArrayAllocOptions) (prev : Nat),
      o.next_num_elems prev = o.initial_num_elems) ∧
    (G1SegmentedArrayAllocOptions.makeDefault 16).next_num_elems 16 ≠
      (G1SegmentedArrayAllocOptions.makeDefault 16).exponential_expand 16 := by
  refine ⟨fun o prev => rfl, ?_⟩
  decide

/-- C3: after `reset(n)` completes (the self-link assertion did not
fire), the bump offset is `0` (so `length()` is `0`), the backing
storage is `num_elems * elem_size` zero bytes, and the intrusive link
is `n`. -/
theorem reset_post (b b' : SegmentedArrayBuffer) (n : Option Nat)
    (h : b.reset n = some b') :
    b'.next_allocate = 0 ∧ b'.length = 0 ∧
    b'.buffer = List.replicate (b.num_elems * b.elem_size) 0 ∧
    b'.buffer.length = b.num_elems * b.elem_size ∧
    (∀ x ∈ b'.buffer, x = 0) ∧ b'.next = n := by
  unfold SegmentedArrayBuffer.reset SegmentedArrayBuffer.set_next at h
  by_cases hn : n = some b.id
  · simp [hn] at h
  · simp [hn] at h
    subst h
    refine ⟨rfl, rfl, rfl, by simp, ?_, rfl⟩
    intro x hx
    exact List.eq_of_mem_replicate hx

/-- Witness for C3 at a concrete buffer and link. -/
theorem reset_post_witness :
    (SegmentedArrayBuffer.mk 7 2 3 (some 9) [1, 2, 3, 4, 5, 6] 4).reset
        (some 11) =
      some (SegmentedArrayBuffer.mk 7 2 3 (some 11)
        [0, 0, 0, 0, 0, 0] 0) ∧
    ((SegmentedArrayBuffer.mk 7 2 3 (some 11) [0, 0, 0, 0, 0, 0] 0).next_allocate
        = 0 ∧
      (SegmentedArrayBuffer.mk 7 2 3 (some 11) [0, 0, 0, 0, 0, 0] 0).length = 0 ∧
      (SegmentedArrayBuffer.mk 7 2 3 (some 11) [0, 0, 0, 0, 0, 0] 0).buffer =
        List.replicate (3 * 2) 0 ∧
      (SegmentedArrayBuffer.mk 7 2 3 (some 11)
          [0, 0, 0, 0, 0, 0] 0).buffer.length = 3 * 2 ∧
      (∀ x ∈ (SegmentedArrayBuffer.mk 7 2 3 (some 11)
          [0, 0, 0, 0, 0, 0] 0).buffer, x = 0) ∧
      (SegmentedArrayBuffer.mk 7 2 3 (some 11) [0, 0, 0, 0, 0, 0] 0).next =
        some 11) :=
  ⟨by decide,
    reset_post (SegmentedArrayBuffer.mk 7 2 3 (some 9) [1, 2, 3, 4, 5, 6] 4)
      (SegmentedArrayBuffer.mk 7 2 3 (some 11) [0, 0, 0, 0, 0, 0] 0)
      (some 11) (by decide)⟩

/-- C4 counterexample: `reset` is an operation of the Buffer interface
and it does decrease `next_allocate`: a buffer whose offset is `5`
has offset `0` after `reset`, refuting "no operation of the Buffer
interface ever decreases it". -/
theorem reset_decreases_next_allocate :
    ((SegmentedArrayBuffer.mk 0 1 4 none [9, 9, 9, 9] 5).reset none).map
        SegmentedArrayBuffer.next_allocate = some 0 ∧
    ¬ (SegmentedArrayBuffer.mk 0 1 4 none [9, 9, 9, 9] 5).next_allocate ≤ 0 := by
  decide

/-- C4 amended: apart from `reset` (which reinitializes the offset to
`0`), no Buffer operation decreases `next_allocate`: the only mutator,
`get_new_buffer_elem`, always increments it by one — also when the
buffer is already full, so the offset can exceed `capacity` — and the
buffer is full exactly when `next_allocate >= capacity`. -/
theorem next_allocate_monotone (b : SegmentedArrayBuffer) :
    b.next_allocate ≤ (b.get_new_buffer_elem).2.next_allocate ∧
    (b.get_new_buffer_elem).2.next_allocate = b.next_allocate + 1 ∧
    (b.is_full = true ↔ b.num_elems ≤ b.next_allocate) := by
  refine ⟨Nat.le_succ _, rfl, ?_⟩
  simp [SegmentedArrayBuffer.is_full]

/-- C5 counterexample: the constructor stores its arguments unchecked,
so an instance built with `initial_num_elems = 2` stores `2 < 8`, and
one built with `max_num_elems = UINT_MAX` stores a maximum above
`UINT_MAX / 2`. -/
theorem alloc_options_unchecked :
    ¬ (8 ≤ (G1SegmentedArrayAllocOptions.make 16 2 100 4).initial_num_elems) ∧
    ¬ ((G1SegmentedArrayAllocOptions.make 16 8 UINT_MAX 4).max_num_elems ≤
        UINT_MAX / 2) := by
  decide

/-- C5 amended: the constructor stores each argument unchanged, so the
bounds `initial_num_elems ≥ 8` and `max_num_elems ≤ UINT_MAX / 2` hold
exactly when the arguments satisfy them — in particular they hold for
the declared defaults `MinimumBufferSize = 8` and
`MaximumBufferSize = UINT_MAX / 2`. -/
theorem alloc_options_bounds (e i m a : Nat) (hi : 8 ≤ i)
    (hm : m ≤ UINT_MAX / 2) :
    (G1SegmentedArrayAllocOptions.make e i m a).initial_num_elems = i ∧
    (G1SegmentedArrayAllocOptions.make e i m a).max_num_elems = m ∧
    8 ≤ (G1SegmentedArrayAllocOptions.make e i m a).initial_num_elems ∧
    (G1SegmentedArrayAllocOptions.make e i m a).max_num_elems ≤ UINT_MAX / 2 ∧
    8 ≤ (G1SegmentedArrayAllocOptions.makeDefault e).initial_num_elems ∧
    (G1SegmentedArrayAllocOptions.makeDefault e).max_num_elems ≤ UINT_MAX / 2 :=
  ⟨rfl, rfl, hi, hm, Nat.le_refl 8, Nat.le_refl _⟩

/-- Witness for C5-as-amended at concrete arguments. -/
theorem alloc_options_bounds_witness :
    8 ≤ 10 ∧ (1000 ≤ UINT_MAX / 2) ∧
    ((G1SegmentedArrayAllocOptions.make 16 10 1000 4).initial_num_elems = 10 ∧
      (G1SegmentedArrayAllocOptions.make 16 10 1000 4).max_num_elems = 1000 ∧
      8 ≤ (G1SegmentedArrayAllocOptions.make 16 10 1000 4).initial_num_elems ∧
      (G1SegmentedArrayAllocOptions.make 16 10 1000 4).max_num_elems ≤
        UINT_MAX / 2 ∧
      8 ≤ (G1SegmentedArrayAllocOptions.makeDefault 16).initial_num_elems ∧
      (G1SegmentedArrayAllocOptions.makeDefault 16).max_num_elems ≤
        UINT_MAX / 2) :=
  ⟨by decide, by decide,
    alloc_options_bounds 16 10 1000 4 (by decide) (by decide)⟩

/-- C6: when `initial_num_elems ≤ max_num_elems`, `exponential_expand`
returns `prev * 2` (as `uint`, i.e. modulo `2^32`) bounded below by
`initial_num_elems` and above by `max_num_elems`: the result is always
within `[initial, max]`, and equals the doubled value itself whenever
that value already lies in the interval. -/
theorem exponential_expand_clamps (o : G1SegmentedArrayAllocOptions)
    (prev : Nat) (h : o.initial_num_elems ≤ o.max_num_elems) :
    o.initial_num_elems ≤ o.exponential_expand prev ∧
    o.exponential_expand prev ≤ o.max_num_elems ∧
    (o.initial_num_elems ≤ prev * 2 % 2 ^ 32 →
      prev * 2 % 2 ^ 32 ≤ o.max_num_elems →
      o.exponential_expand prev = prev * 2 % 2 ^ 32) := by
  unfold G1SegmentedArrayAllocOptions.exponential_expand clamp
  refine ⟨le_min (le_max_right _ _) h, min_le_right _ _, fun h1 h2 => ?_⟩
  rw [max_eq_left h1, min_eq_left h2]

/-- Witness for C6 at a concrete policy and previous capacity. -/
theorem exponential_expand_clamps_witness :
    (G1SegmentedArrayAllocOptions.make 16 8 100 4).initial_num_elems ≤
      (G1SegmentedArrayAllocOptions.make 16 8 100 4).max_num_elems ∧
    ((G1SegmentedArrayAllocOptions.make 16 8 100 4).initial_num_elems ≤
        (G1SegmentedArrayAllocOptions.make 16 8 100 4).exponential_expand 20 ∧
      (G1SegmentedArrayAllocOptions.make 16 8 100 4).exponential_expand 20 ≤
        (G1SegmentedArrayAllocOptions.make 16 8 100 4).max_num_elems ∧
      ((G1SegmentedArrayAllocOptions.make 16 8 100 4).initial_num_elems ≤
          20 * 2 % 2 ^ 32 →
        20 * 2 % 2 ^ 32 ≤
          (G1SegmentedArrayAllocOptions.make 16 8 100 4).max_num_elems →
        (G1SegmentedArrayAllocOptions.make 16 8 100 4).exponential_expand 20 =
          20 * 2 % 2 ^ 32)) :=
  ⟨by decide,
    exponential_expand_clamps (G1SegmentedArrayAllocOptions.make 16 8 100 4)
      20 (by decide)⟩

/-- C7: `elem_size` and `num_elems` are immutable: `reset` keeps both,
and a buffer pushed onto the free-buffer pool and popped back has the
same `elem_size` and `num_elems` (only its intrusive link changed). -/
theorem elem_size_capacity_immutable (l : SegmentedArrayBufferList)
    (b b' : SegmentedArrayBuffer) (n : Option Nat)
    (h : b.reset n = some b') :
    b'.elem_size = b.elem_size ∧ b'.num_elems = b.num_elems ∧
    ((l.add b).get).1.map SegmentedArrayBuffer.elem_size = some b.elem_size ∧
    ((l.add b).get).1.map SegmentedArrayBuffer.num_elems = some b.num_elems := by
  refine ⟨?_, ?_, rfl, rfl⟩ <;>
  · unfold SegmentedArrayBuffer.reset SegmentedArrayBuffer.set_next at h
    by_cases hn : n = some b.id
    · simp [hn] at h
    · simp [hn] at h
      subst h
      rfl

/-- Witness for C7 at a concrete pool, buffer and link. -/
theorem elem_size_capacity_immutable_witness :
    (SegmentedArrayBuffer.mk 7 2 3 none [1, 2, 3, 4, 5, 6] 4).reset none =
      some (SegmentedArrayBuffer.mk 7 2 3 none [0, 0, 0, 0, 0, 0] 0) ∧
    ((SegmentedArrayBuffer.mk 7 2 3 none [0, 0, 0, 0, 0, 0] 0).elem_size =
        (SegmentedArrayBuffer.mk 7 2 3 none [1, 2, 3, 4, 5, 6] 4).elem_size ∧
      (SegmentedArrayBuffer.mk 7 2 3 none [0, 0, 0, 0, 0, 0] 0).num_elems =
        (SegmentedArrayBuffer.mk 7 2 3 none [1, 2, 3, 4, 5, 6] 4).num_elems ∧
      (((SegmentedArrayBufferList.mk []).add
          (SegmentedArrayBuffer.mk 7 2 3 none [1, 2, 3, 4, 5, 6] 4)).get).1.map
          SegmentedArrayBuffer.elem_size =
        some (SegmentedArrayBuffer.mk 7 2 3 none
          [1, 2, 3, 4, 5, 6] 4).elem_size ∧
      (((SegmentedArrayBufferList.mk []).add
          (SegmentedArrayBuffer.mk 7 2 3 none [1, 2, 3, 4, 5, 6] 4)).get).1.map
          SegmentedArrayBuffer.num_elems =
        some (SegmentedArrayBuffer.mk 7 2 3 none
          [1, 2, 3, 4, 5, 6] 4).num_elems) :=
  ⟨by decide,
    elem_size_capacity_immutable (SegmentedArrayBufferList.mk [])
      (SegmentedArrayBuffer.mk 7 2 3 none [1, 2, 3, 4, 5, 6] 4)
      (SegmentedArrayBuffer.mk 7 2 3 none [0, 0, 0, 0, 0, 0] 0)
      none (by decide)⟩

/-- C8: construction with only an element size applies the defaults
`initial_num_elems = MinimumBufferSize = 8`,
`max_num_elems = MaximumBufferSize = UINT_MAX / 2 = 2147483647` and
`alignment = BufferAlignment = 4`. -/
theorem default_options (e : Nat) :
    (G1SegmentedArrayAllocOptions.makeDefault e).elem_size = e ∧
    (G1SegmentedArrayAllocOptions.makeDefault e).initial_num_elems = 8 ∧
    (G1SegmentedArrayAllocOptions.makeDefault e).max_num_elems = UINT_MAX / 2 ∧
    (G1SegmentedArrayAllocOptions.makeDefault e).max_num_elems = 2147483647 ∧
    (G1SegmentedArrayAllocOptions.makeDefault e).alignment = 4 :=
  ⟨rfl, rfl, rfl, rfl, rfl⟩

/-- C9: for every buffer `b` and link `n ≠ b`, the self-link assertions
in `set_next` and `reset` do not fire (both calls complete), and the
resulting link is `n`, which is never the buffer itself. -/
theorem no_self_link (b : SegmentedArrayBuffer) (n : Option Nat)
    (h : n ≠ some b.id) :
    (∃ b1, b.set_next n = some b1 ∧ b1.next = n ∧ b1.next ≠ some b1.id) ∧
    (∃ b2, b.reset n = some b2 ∧ b2.next = n ∧ b2.next ≠ some b2.id) := by
  exact ⟨⟨_, b.set_next_eq_of_ne n h, rfl, h⟩,
    ⟨_, b.reset_eq_of_ne n h, rfl, h⟩⟩

/-- Witness for C9 at a concrete buffer and link. -/
theorem no_self_link_witness :
    (some 11 ≠ some (SegmentedArrayBuffer.mk 7 2 3 none [0] 0).id) ∧
    ((∃ b1, (SegmentedArrayBuffer.mk 7 2 3 none [0] 0).set_next (some 11) =
        some b1 ∧ b1.next = some 11 ∧ b1.next ≠ some b1.id) ∧
      (∃ b2, (SegmentedArrayBuffer.mk 7 2 3 none [0] 0).reset (some 11) =
        some b2 ∧ b2.next = some 11 ∧ b2.next ≠ some b2.id)) :=
  ⟨by decide,
    no_self_link (SegmentedArrayBuffer.mk 7 2 3 none [0] 0) (some 11)
      (by decide)⟩

/-- C10: `exponential_expand` doubles in wrapping 32-bit arithmetic:
for every `uint` argument above `UINT_MAX / 2` the product `prev * 2`
wraps modulo `2^32`, and on the default policy the helper is not
monotone — `prev = 2^30` yields `2147483647` while the larger
`prev = 2^31 > UINT_MAX / 2` yields only `8`, smaller than `prev`. -/
theorem exponential_expand_wraps :
    (∀ prev : Nat, UINT_MAX / 2 < prev → prev ≤ UINT_MAX →
      prev * 2 % 2 ^ 32 = prev * 2 - 2 ^ 32) ∧
    (G1SegmentedArrayAllocOptions.makeDefault 16).exponential_expand
        1073741824 = 2147483647 ∧
    (G1SegmentedArrayAllocOptions.makeDefault 16).exponential_expand
        2147483648 = 8 ∧
    UINT_MAX / 2 < 2147483648 ∧ (8 : Nat) < 2147483648 := by
  refine ⟨fun prev h1 h2 => ?_, by decide, by decide, by decide, by decide⟩
  have hlo : 2 ^ 32 ≤ prev * 2 := by
    have : 2 ^ 31 ≤ prev := h1
    omega
  have hhi : prev * 2 < 2 * 2 ^ 32 := by
    unfold UINT_MAX at h2
    omega
  omega

/-- Witness for C10's universal part at a concrete wrapped argument. -/
theorem exponential_expand_wraps_witness :
    UINT_MAX / 2 < 3000000000 ∧ 3000000000 ≤ UINT_MAX ∧
    3000000000 * 2 % 2 ^ 32 = 3000000000 * 2 - 2 ^ 32 :=
  ⟨by decide, by decide,
    exponential_expand_wraps.1 3000000000 (by decide) (by decide)⟩

/-- C2: from a fresh buffer of capacity `C = num_elems`, any
`C + K` calls to `get_new_buffer_elem` (every thread interleaving is a
sequential order of the `C + K` atomic fetch-and-adds, see
`runAllocs`): all `C + K` calls complete, exactly the first `C`
succeed — their returned regions are the byte offsets
`0, elem_size, …, (C-1)*elem_size`, pairwise distinct (no region
returned twice) and pairwise non-overlapping — and the remaining `K`
calls all return "exhausted" (`none`). -/
theorem buffer_alloc_exact (b : SegmentedArrayBuffer) (K : Nat)
    (h0 : b.next_allocate = 0) (hes : 0 < b.elem_size) :
    (SegmentedArrayBuffer.runAllocs (b.num_elems + K) b).1.length =
      b.num_elems + K ∧
    (SegmentedArrayBuffer.runAllocs (b.num_elems + K) b).1.filterMap id =
      (List.range b.num_elems).map (fun i => i * b.elem_size) ∧
    ((SegmentedArrayBuffer.runAllocs (b.num_elems + K) b).1.filterMap
      id).length = b.num_elems ∧
    ((SegmentedArrayBuffer.runAllocs (b.num_elems + K) b).1.filterMap
      id).Nodup ∧
    ((SegmentedArrayBuffer.runAllocs (b.num_elems + K) b).1.filterMap
      id).Pairwise
        (fun x y => x + b.elem_size ≤ y ∨ y + b.elem_size ≤ x) ∧
    (SegmentedArrayBuffer.runAllocs (b.num_elems + K) b).1.filter
      (fun r => r.isNone) = List.replicate K none := by
  have hrs : (SegmentedArrayBuffer.runAllocs (b.num_elems + K) b).1 =
      (List.range (b.num_elems + K)).map
        (fun i => if i < b.num_elems then some (i * b.elem_size)
          else none) := by
    rw [runAllocs_results, h0]
    simp
  have hsucc : (SegmentedArrayBuffer.runAllocs (b.num_elems + K) b).1.filterMap
      id = (List.range b.num_elems).map (fun i => i * b.elem_size) := by
    rw [hrs, List.filterMap_map, Function.id_comp, List.range_add,
      List.filterMap_append]
    have h1 : (List.range b.num_elems).filterMap
        (fun i => if i < b.num_elems then some (i * b.elem_size)
          else none) =
        (List.range b.num_elems).map (fun i => i * b.elem_size) := by
      apply filterMap_eq_map_of_some
      intro i hi
      rw [if_pos (List.mem_range.mp hi)]
    have h2 : (List.map (fun x => b.num_elems + x)
        (List.range K)).filterMap
        (fun i => if i < b.num_elems then some (i * b.elem_size)
          else none) = [] := by
      rw [List.filterMap_eq_nil_iff]
      intro a ha
      obtain ⟨x, hx, rfl⟩ := List.mem_map.mp ha
      rw [if_neg (by omega)]
    rw [h1, h2, List.append_nil]
  have hfail : (SegmentedArrayBuffer.runAllocs (b.num_elems + K) b).1.filter
      (fun r => r.isNone) = List.replicate K none := by
    rw [hrs, List.range_add, List.map_append, List.filter_append]
    have h1 : ((List.range b.num_elems).map
        (fun i => if i < b.num_elems then some (i * b.elem_size)
          else none)).filter (fun r => r.isNone) = [] := by
      rw [List.filter_eq_nil_iff]
      intro a ha
      obtain ⟨x, hx, rfl⟩ := List.mem_map.mp ha
      rw [if_pos (List.mem_range.mp hx)]
      simp
    have hmap : (List.map (fun x => b.num_elems + x)
        (List.range K)).map
        (fun i => if i < b.num_elems then some (i * b.elem_size)
          else none) = List.replicate K (none : Option Nat) := by
      rw [List.eq_replicate_iff]
      refine ⟨by simp, ?_⟩
      intro r hr
      obtain ⟨y, hy, rfl⟩ := List.mem_map.mp hr
      obtain ⟨x, hx, rfl⟩ := List.mem_map.mp hy
      rw [if_neg (by omega)]
    rw [h1, hmap, List.nil_append]
    simp [List.filter_replicate]
  refine ⟨by rw [hrs]; simp, hsucc, by rw [hsucc]; simp, ?_, ?_, hfail⟩
  · rw [hsucc]
    exact List.Nodup.map
      (fun x y hxy => Nat.eq_of_mul_eq_mul_right hes hxy)
      (List.nodup_range _)
  · rw [hsucc]
    refine List.Pairwise.map _ ?_ (List.pairwise_lt_range _)
    intro x y hxy
    left
    calc x * b.elem_size + b.elem_size = (x + 1) * b.elem_size := by ring
      _ ≤ y * b.elem_size := Nat.mul_le_mul hxy (Nat.le_refl _)

/-- A concrete fresh buffer used to witness C2: capacity 3, element
size 2, six zero bytes of storage, bump offset 0. -/
def testBuf : SegmentedArrayBuffer := ⟨0, 2, 3, none, [0, 0, 0, 0, 0, 0], 0⟩

/-- Witness for C2 at the concrete buffer `testBuf` and `K = 2`. -/
theorem buffer_alloc_exact_witness :
    testBuf.next_allocate = 0 ∧ 0 < testBuf.elem_size ∧
    ((SegmentedArrayBuffer.runAllocs (testBuf.num_elems + 2) testBuf).1.length =
        testBuf.num_elems + 2 ∧
      (SegmentedArrayBuffer.runAllocs (testBuf.num_elems + 2)
          testBuf).1.filterMap id =
        (List.range testBuf.num_elems).map (fun i => i * testBuf.elem_size) ∧
      ((SegmentedArrayBuffer.runAllocs (testBuf.num_elems + 2)
          testBuf).1.filterMap id).length = testBuf.num_elems ∧
      ((SegmentedArrayBuffer.runAllocs (testBuf.num_elems + 2)
          testBuf).1.filterMap id).Nodup ∧
      ((SegmentedArrayBuffer.runAllocs (testBuf.num_elems + 2)
          testBuf).1.filterMap id).Pairwise
          (fun x y => x + testBuf.elem_size ≤ y ∨ y + testBuf.elem_size ≤ x) ∧
      (SegmentedArrayBuffer.runAllocs (testBuf.num_elems + 2) testBuf).1.filter
        (fun r => r.isNone) = List.replicate 2 none) :=
  ⟨rfl, by decide, buffer_alloc_exact testBuf 2 rfl (by decide)⟩
